import Mathlib

/-!
Verification of the telegram-search message-resolution pipeline.

This file gives a shallow embedding of the pipeline core:
- the orchestrator `processMessages` with its uuid-keyed merge
  (src/packages/core/src/services/message.ts, lines 53-109),
- the fetch driver `fetchMessages` (same file, lines 111-158),
- the media resolver `createMediaResolver.stream` (src/unnamed/part_000,
  lines 390-482),
- the sticker store `findStickerByFileId` / `recordSticker`
  (src/unnamed/part_001, lines 22-57),
and proves the merge, isolation, filtering, caching and emission-order
properties the design document states about them.
-/

namespace TgSearch

/-- Raw bytes of a downloaded media payload (a Node `Buffer` in the source). -/
abbrev Bytes := List Nat

/-- The media kind tag, `CoreMessageMediaTypes` in the source:
photo, sticker, document or unknown. -/
inductive CoreMessageMediaTypes where
  | photo
  | sticker
  | document
  | unknown
deriving DecidableEq, Repr

/-- Opaque platform media reference (`apiMedia` on a media entry). The media
resolver reads `apiMedia.document.id` as the sticker file id and hands the
whole reference to `downloadMedia`; `documentId` is that file id. -/
structure ApiMediaRef where
  documentId : String
deriving DecidableEq, Repr

/-- One media attachment of a canonical message, `CoreMessageMedia` in the
source: the opaque platform reference, optional raw bytes, optional on-disk
path, optional base64 encoding (read by the message-bubble UI), the kind tag
and the owning message's uuid. -/
structure CoreMessageMedia where
  apiMedia : ApiMediaRef
  byte : Option Bytes
  path : Option String
  base64 : Option String
  type : CoreMessageMediaTypes
  messageUUID : String
deriving DecidableEq, Repr

/-- A canonical message, `CoreMessage` in the source: the conversion-time
`uuid` join key, the platform identifiers, optional text content and the
optional attachment list. -/
structure CoreMessage where
  uuid : String
  chatId : String
  platformMessageId : String
  platformTimestamp : Nat
  content : Option String
  media : Option (List CoreMessageMedia)
deriving DecidableEq, Repr

/-- A platform-native message: either a tombstone (`Api.MessageEmpty` in the
source) or a real message with an id and payload. -/
inductive ApiMessage where
  | messageEmpty (id : Nat)
  | message (id : Nat) (payload : String)
deriving DecidableEq, Repr

/-- True exactly on tombstones, the `message instanceof Api.MessageEmpty`
test of the fetch driver. -/
def ApiMessage.isMessageEmpty : ApiMessage → Bool
  | ApiMessage.messageEmpty _ => true
  | ApiMessage.message _ _ => false

/-- Embedding of the call `defu(m, resolved)` (message.ts line 99) at the
`CoreMessage` record type. `defu(object, defaults)` gives priority to its
FIRST argument: a key whose value in the first argument is defined (neither
null nor undefined) keeps that value, a key the first argument leaves
undefined takes the second argument's value, and when both arguments hold
arrays at a key the result is the first argument's array concatenated in
front of the second's (defu never replaces or index-merges arrays). At this
record type that yields: the always-defined scalar fields keep `m`'s values,
the optional `content` keeps `m`'s value whenever `m` defines it, and the
array-valued `media` concatenates `m`'s entries before `resolved`'s when
both define it. -/
def defuMessage (m resolved : CoreMessage) : CoreMessage :=
  { uuid := m.uuid
    chatId := m.chatId
    platformMessageId := m.platformMessageId
    platformTimestamp := m.platformTimestamp
    content :=
      match m.content with
      | some c => some c
      | none => resolved.content
    media :=
      match m.media, resolved.media with
      | some a, some b => some (a ++ b)
      | some a, none => some a
      | none, mb => mb }

/-- Embedding of `new Map(result.map(m => [m.uuid, m]))` followed by
`.get(uuid)` (message.ts lines 96-98). A JS `Map` built from a list keeps,
for every key, the last entry carrying that key, so the lookup returns the
last element of `result` with the given uuid. -/
def lookupResultByUuid (result : List CoreMessage) (uuid : String) : Option CoreMessage :=
  result.reverse.find? (fun m => m.uuid == uuid)

/-- One step of the uuid-keyed merge (message.ts lines 97-100): a base
message is overlaid with its resolver-result entry through `defu` when one
exists and is returned unchanged otherwise. -/
def mergeResolved (result : List CoreMessage) (m : CoreMessage) : CoreMessage :=
  match lookupResultByUuid result m.uuid with
  | some resolved => defuMessage m resolved
  | none => m

/-- The orchestrator's uuid-keyed merge (message.ts lines 96-100):
`emitMessages.map(m => resultByUuid.get(m.uuid) ? defu(m, resolved) : m)`. -/
def mergeByUuid (emitMessages result : List CoreMessage) : List CoreMessage :=
  emitMessages.map (mergeResolved result)

/-- An event emitted by the orchestrator: `message:data` (a batch pushed to
the live sink) or `storage:record:messages` (the final batch handed to
persistence). -/
inductive Emission where
  | messageData (messages : List CoreMessage)
  | storageRecord (messages : List CoreMessage)
deriving DecidableEq, Repr

/-- A registered resolver. Exactly one execution mode is active per
instance, matching the `if (resolver.run) ... else if (resolver.stream)`
branch of the orchestrator. A run-mode resolver returns a whole batch or
fails (`unwrap` throwing is the failure case). A stream-mode resolver yields
a finite list of messages and may then fail; the messages yielded before the
failure were already emitted individually. -/
inductive Resolver where
  | run (f : List CoreMessage → Except String (List CoreMessage))
  | stream (f : List CoreMessage → List CoreMessage × Option String)

/-- True when the resolver throws on the given batch: a run-mode result
whose `unwrap` fails, or a stream that raises during iteration. -/
def resolverFailsOn (r : Resolver) (batch : List CoreMessage) : Bool :=
  match r with
  | Resolver.run f =>
      match f batch with
      | Except.error _ => true
      | Except.ok _ => false
  | Resolver.stream f => (f batch).2.isSome

/-- One iteration of the orchestrator's resolver loop (message.ts lines
69-106) on the current batch. A throwing resolver is caught and leaves the
batch unchanged; a stream-mode resolver emits each yielded message
individually; a non-empty result is merged into the batch by uuid, an empty
result leaves the batch unchanged (the `result.length > 0` guard). -/
def resolverStep (emitMessages : List CoreMessage) (r : Resolver) :
    List CoreMessage × List Emission :=
  match r with
  | Resolver.run f =>
      match f emitMessages with
      | Except.error _ => (emitMessages, [])
      | Except.ok result =>
          (if result.length > 0 then mergeByUuid emitMessages result else emitMessages, [])
  | Resolver.stream f =>
      let produced := (f emitMessages).1
      let emissions := produced.map (fun m => Emission.messageData [m])
      match (f emitMessages).2 with
      | some _ => (emitMessages, emissions)
      | none =>
          (if produced.length > 0 then mergeByUuid emitMessages produced else emitMessages,
           emissions)

/-- The full resolver loop over the registry entries in insertion order,
returning the final batch and the stream emissions made along the way. -/
def runRegistry (registry : List (String × Resolver)) (batch : List CoreMessage) :
    List CoreMessage × List Emission :=
  match registry with
  | [] => (batch, [])
  | entry :: rest =>
      let step := resolverStep batch entry.2
      let tail := runRegistry rest step.1
      (tail.1, step.2 ++ tail.2)

/-- The orchestrator `processMessages` (message.ts lines 53-109), modelled
as the ordered trace of its emissions. The conversion
`convertToCoreMessage(message).orUndefined()` followed by the non-null
filter is the `filterMap` of a conversion function; `convertToCoreMessage`
lives in `src/utils/message` outside the provided sources, so the
conversion is a parameter. The trace is: one `message:data` carrying the
whole converted batch, then the per-message stream emissions of the
resolver loop, then the final `storage:record:messages`. -/
def processMessages (convert : ApiMessage → Option CoreMessage)
    (registry : List (String × Resolver)) (messages : List ApiMessage) : List Emission :=
  let coreMessages := messages.filterMap convert
  let result := runRegistry registry coreMessages
  Emission.messageData coreMessages :: (result.2 ++ [Emission.storageRecord result.1])

/-- Pagination window handed to the fetch driver (`CorePagination`). -/
structure CorePagination where
  limit : Nat
  offset : Nat
deriving DecidableEq, Repr

/-- The options of `fetchMessages` that the driver actually reads:
pagination plus the optional incremental id bounds. -/
structure FetchMessageOpts where
  pagination : CorePagination
  minId : Option Nat
  maxId : Option Nat
deriving DecidableEq, Repr

/-- The argument record of `client.getMessages(chatId, {limit, minId,
maxId, addOffset})` as built by `fetchMessages`. -/
structure GetMessagesParams where
  chatId : String
  limit : Nat
  minId : Option Nat
  maxId : Option Nat
  addOffset : Nat
deriving DecidableEq, Repr

/-- The platform client as the fetch driver sees it: an authorization check
and a page fetch that may throw (the `catch` in `fetchMessages`). -/
structure TelegramClient where
  isUserAuthorized : Bool
  getMessages : GetMessagesParams → Except String (List ApiMessage)

/-- The generator return values of `fetchMessages`: the `Err` built for an
empty page and the `Err` built in the catch block. (A JS `for await` loop
never observes a generator's return value.) -/
inductive FetchError where
  | emptyResult
  | fetchFailed (message : String)
deriving DecidableEq, Repr

/-- Outcome of driving the `fetchMessages` async generator to completion:
the messages it yielded, in order, and its final return value. -/
structure GenOutcome where
  yielded : List ApiMessage
  returned : Option FetchError
deriving DecidableEq, Repr

/-- The fetch driver `fetchMessages` (message.ts lines 111-158). When the
session is not authorized it logs and plain-returns, ending the generator
with no yields and no error value. Otherwise it fetches one page; a thrown
fetch is caught and converted to an `Err` return value, an empty page
becomes an `Err` return value, and a non-empty page is yielded
message-by-message with tombstones (`Api.MessageEmpty`) skipped. -/
def fetchMessages (client : TelegramClient) (chatId : String)
    (options : FetchMessageOpts) : GenOutcome :=
  if client.isUserAuthorized = false then
    { yielded := [], returned := none }
  else
    match client.getMessages
        { chatId := chatId
          limit := options.pagination.limit
          minId := options.minId
          maxId := options.maxId
          addOffset := options.pagination.offset } with
    | Except.error e => { yielded := [], returned := some (FetchError.fetchFailed e) }
    | Except.ok messages =>
        if messages.length = 0 then
          { yielded := [], returned := some FetchError.emptyResult }
        else
          { yielded := messages.filter (fun m => !m.isMessageEmpty), returned := none }

/-- One row of the stickers table (part_001): keyed by `file_id`, holding
the cached bytes, the cached path and the free-text metadata columns. -/
structure StickerRow where
  platform : String
  file_id : String
  sticker_bytes : Option Bytes
  sticker_path : Option String
  description : String
  name : String
  emoji : String
  label : String
deriving DecidableEq, Repr

/-- The stickers table as an insertion-ordered list of rows. -/
abbrev StickerDb := List StickerRow

/-- `findStickerByFileId` (part_001 lines 22-35): select the rows whose
`file_id` equals the argument, limit 1; `undefined` when no row matches,
otherwise the first matching row. -/
def findStickerByFileId (db : StickerDb) (fileId : String) : Option StickerRow :=
  db.find? (fun row => row.file_id == fileId)

/-- The argument of `recordSticker`: a `CoreMessageMedia` together with the
sticker's file id and an optional emoji. -/
structure StickerInput where
  media : CoreMessageMedia
  sticker_id : String
  emoji : Option String
deriving DecidableEq, Repr

/-- The row `recordSticker` inserts (part_001 lines 41-55): platform
`telegram`, the given file id, the media's bytes and path, empty description,
name and label, and the given emoji defaulted to the empty string. -/
def mkStickerRow (s : StickerInput) : StickerRow :=
  { platform := "telegram"
    file_id := s.sticker_id
    sticker_bytes := s.media.byte
    sticker_path := s.media.path
    description := ""
    name := ""
    emoji := s.emoji.getD ""
    label := "" }

/-- `recordSticker` (part_001 lines 37-57): look the file id up first and
skip the insert when a row already exists; otherwise append the new row. -/
def recordSticker (db : StickerDb) (s : StickerInput) : StickerDb :=
  match findStickerByFileId db s.sticker_id with
  | some _ => db
  | none => db ++ [mkStickerRow s]

/-- The environment of the media resolver: the current stickers table (the
resolver calls `findStickerByFileId` on it), the platform download endpoint
(`downloadMedia` returns a `Buffer` on success and null/undefined on
failure), and the components of the storage path (`getMediaPath(...)` and
`getMe().id`). -/
structure MediaEnv where
  stickerDb : StickerDb
  downloadMedia : ApiMediaRef → Option Bytes
  mediaBase : String
  userId : String

/-- The collaborator calls a media-resolver run performs: platform
downloads, fire-and-forget file writes, and sticker-cache inserts. The
resolver source contains no call into the sticker store's insert
(`recordSticker`), so the last list is empty in every branch; tracking it
makes that absence a provable fact. Idempotent directory creation is not
tracked. -/
structure MediaEffects where
  downloads : List ApiMediaRef
  fileWrites : List (String × Bytes)
  cacheInserts : List String
deriving DecidableEq, Repr

/-- An effect-free run: no download, no write, no cache insert. -/
def noEffects : MediaEffects :=
  { downloads := [], fileWrites := [], cacheInserts := [] }

/-- `join` of two path segments. -/
def pathJoin (a b : String) : String := a ++ "/" ++ b

/-- Per-attachment body of the media resolver (part_000 lines 417-472).
For a sticker the cache is consulted first (the source repeats the identical
lookup block three times, lines 424-452; against a pure cache the three
lookups coincide, so one conditional is equivalent): on a hit the attachment
is returned as a spread of the input with `byte` replaced by the cached
bytes, performing no download. Otherwise the bytes are downloaded; the
target path is `join(mediaBase, userId, chatId, platformMessageId)`; a
successful download (a `Buffer`) is written to disk fire-and-forget; the
returned attachment is rebuilt from scratch with the downloaded bytes, the
computed path always set, and no `base64` field. -/
def resolveMedia (env : MediaEnv) (message : CoreMessage) (media : CoreMessageMedia) :
    CoreMessageMedia × MediaEffects :=
  let userMediaPath := pathJoin (pathJoin env.mediaBase env.userId) message.chatId
  let mediaPath := pathJoin userMediaPath message.platformMessageId
  let fetched := env.downloadMedia media.apiMedia
  let downloaded : CoreMessageMedia × MediaEffects :=
    ({ apiMedia := media.apiMedia
       byte := fetched
       path := some mediaPath
       base64 := none
       type := media.type
       messageUUID := media.messageUUID },
     { downloads := [media.apiMedia]
       fileWrites :=
         match fetched with
         | some b => [(mediaPath, b)]
         | none => []
       cacheInserts := [] })
  if media.type = CoreMessageMediaTypes.sticker then
    match findStickerByFileId env.stickerDb media.apiMedia.documentId with
    | some row => ({ media with byte := row.sticker_bytes }, noEffects)
    | none => downloaded
  else downloaded

/-- Componentwise union of the effects of several attachment resolutions. -/
def combineEffects (l : List MediaEffects) : MediaEffects :=
  l.foldr
    (fun e acc =>
      { downloads := e.downloads ++ acc.downloads
        fileWrites := e.fileWrites ++ acc.fileWrites
        cacheInserts := e.cacheInserts ++ acc.cacheInserts })
    noEffects

/-- Per-message body of the media resolver's stream (part_000 lines
410-479): a message without attachments is yielded unchanged; otherwise
every attachment is resolved (concurrently in the source, a `Promise.all`
whose callbacks are independent; pure here) and the message is yielded with
the resolved attachment list in the original order. -/
def resolveMessage (env : MediaEnv) (message : CoreMessage) : CoreMessage × MediaEffects :=
  match message.media with
  | none => (message, noEffects)
  | some [] => (message, noEffects)
  | some ms =>
      let resolved := ms.map (fun media => resolveMedia env message media)
      ({ message with media := some (resolved.map Prod.fst) },
       combineEffects (resolved.map Prod.snd))

/-- The media resolver's stream over a batch: one yielded message per input
message, in order, together with the combined effects. -/
def mediaResolverStream (env : MediaEnv) (messages : List CoreMessage) :
    List CoreMessage × MediaEffects :=
  (messages.map (fun m => (resolveMessage env m).1),
   combineEffects (messages.map (fun m => (resolveMessage env m).2)))

/-! Helper lemmas shared by the claim theorems. -/

/-- The defu overlay keeps the base message's uuid (the uuid field is always
defined on the base). -/
theorem defuMessage_uuid (m resolved : CoreMessage) :
    (defuMessage m resolved).uuid = m.uuid := rfl

/-- A merge step never changes a message's uuid. -/
theorem mergeResolved_uuid (result : List CoreMessage) (m : CoreMessage) :
    (mergeResolved result m).uuid = m.uuid := by
  unfold mergeResolved
  cases lookupResultByUuid result m.uuid <;> rfl

/-- A message whose uuid has no entry in the resolver result is returned
unchanged by the merge step. -/
theorem mergeResolved_of_lookup_none (result : List CoreMessage) (m : CoreMessage)
    (h : lookupResultByUuid result m.uuid = none) :
    mergeResolved result m = m := by
  unfold mergeResolved
  rw [h]

/-! C1: the uuid-keyed merge preserves batch length and order and leaves
unmatched messages unchanged. -/

/-- C1. For every batch `B` with unique uuids and every resolver result `R`
whose uuids form a subset of `B`'s, in arbitrary order, the merged batch has
the same length as `B`, carries `B`'s uuids at the same positions (so `B`'s
order is preserved), and every message of `B` with no matching entry in `R`
appears unchanged at its position. -/
theorem mergeByUuid_length_order_unmatched (B R : List CoreMessage)
    (hnodup : (B.map (fun m => m.uuid)).Nodup)
    (hsub : ∀ r ∈ R, ∃ b ∈ B, b.uuid = r.uuid) :
    (mergeByUuid B R).length = B.length ∧
    (mergeByUuid B R).map (fun m => m.uuid) = B.map (fun m => m.uuid) ∧
    ∀ i m, B.get? i = some m → lookupResultByUuid R m.uuid = none →
      (mergeByUuid B R).get? i = some m := by
  refine ⟨by simp [mergeByUuid], ?_, ?_⟩
  · unfold mergeByUuid
    rw [List.map_map]
    apply List.map_congr_left
    intro m _
    exact mergeResolved_uuid R m
  · intro i m hB hnone
    unfold mergeByUuid
    rw [List.get?_map, hB]
    simp [mergeResolved_of_lookup_none R m hnone]

/-- Concrete batch entry for the C1 witness. -/
def c1MsgA : CoreMessage :=
  { uuid := "a", chatId := "c", platformMessageId := "1", platformTimestamp := 10
    content := some "hello", media := none }

/-- Second concrete batch entry for the C1 witness. -/
def c1MsgB : CoreMessage :=
  { uuid := "b", chatId := "c", platformMessageId := "2", platformTimestamp := 11
    content := none, media := none }

/-- Resolver-result entry for the C1 witness: a strict subset of the batch
touching only uuid `b`. -/
def c1ResB : CoreMessage :=
  { uuid := "b", chatId := "c", platformMessageId := "2", platformTimestamp := 11
    content := some "resolved", media := none }

/-- Witness for C1 at a concrete two-message batch and one-entry result. -/
theorem mergeByUuid_length_order_unmatched_witness :
    (([c1MsgA, c1MsgB].map (fun m => m.uuid)).Nodup ∧
      ∀ r ∈ [c1ResB], ∃ b ∈ [c1MsgA, c1MsgB], b.uuid = r.uuid) ∧
    (mergeByUuid [c1MsgA, c1MsgB] [c1ResB]).length = 2 ∧
    (mergeByUuid [c1MsgA, c1MsgB] [c1ResB]).map (fun m => m.uuid) = ["a", "b"] := by
  refine ⟨⟨by decide, by decide⟩, ?_, ?_⟩
  · exact (mergeByUuid_length_order_unmatched [c1MsgA, c1MsgB] [c1ResB]
      (by decide) (by decide)).1
  · have h := (mergeByUuid_length_order_unmatched [c1MsgA, c1MsgB] [c1ResB]
      (by decide) (by decide)).2.1
    rw [h]
    decide

/-! C2: field-level semantics of the merge. The source merges with
`defu(m, resolved)`, whose FIRST argument has priority, so a field the
resolver result defines does not override the base message's defined value,
and array fields are concatenated, not replaced. -/

/-- Base message for the C2 counterexample: content and media defined. -/
def c2MediaBase : CoreMessageMedia :=
  { apiMedia := { documentId := "dA" }, byte := none, path := none, base64 := none
    type := CoreMessageMediaTypes.photo, messageUUID := "u1" }

/-- Resolver-result media entry for the C2 counterexample. -/
def c2MediaPatch : CoreMessageMedia :=
  { apiMedia := { documentId := "dA" }, byte := some [1, 2], path := none, base64 := none
    type := CoreMessageMediaTypes.photo, messageUUID := "u1" }

/-- Base message of the C2 counterexample. -/
def c2Base : CoreMessage :=
  { uuid := "u1", chatId := "c", platformMessageId := "1", platformTimestamp := 5
    content := some "base", media := some [c2MediaBase] }

/-- Matching resolver-result entry of the C2 counterexample, defining both
`content` and `media`. -/
def c2Patch : CoreMessage :=
  { uuid := "u1", chatId := "c", platformMessageId := "1", platformTimestamp := 5
    content := some "patch", media := some [c2MediaPatch] }

/-- Counterexample to C2 as stated. The resolver entry defines
`content = "patch"` and a one-element `media` array, yet the merge keeps the
base's `content = "base"` (no override) and produces the two-element
concatenation of both media arrays (not a wholesale replacement). -/
theorem defuMessage_override_counterexample :
    c2Patch.content = some "patch" ∧
    (defuMessage c2Base c2Patch).content = some "base" ∧
    (defuMessage c2Base c2Patch).content ≠ c2Patch.content ∧
    c2Patch.media = some [c2MediaPatch] ∧
    (defuMessage c2Base c2Patch).media = some [c2MediaBase, c2MediaPatch] ∧
    (defuMessage c2Base c2Patch).media ≠ c2Patch.media := by
  refine ⟨rfl, rfl, by decide, rfl, rfl, by decide⟩

/-- C2 amended. For every base message `m` of the batch with a matching
resolver entry `m2`, the merged batch carries `defu(m, m2)` at `m`'s
position, and `defu(m, m2)` keeps `m`'s uuid, keeps `m`'s `content`
whenever `m` defines it (taking `m2`'s only where `m` leaves it undefined),
and concatenates `m`'s media entries in front of `m2`'s when both define
the array (one side's array is taken as-is when the other leaves it
undefined); no field of `m2` overrides a defined field of `m` and no array
is replaced wholesale. -/
theorem mergeByUuid_defu_field_semantics (B R : List CoreMessage) (i : Nat)
    (m m2 : CoreMessage)
    (hB : B.get? i = some m)
    (hR : lookupResultByUuid R m.uuid = some m2) :
    (mergeByUuid B R).get? i = some (defuMessage m m2) ∧
    (defuMessage m m2).uuid = m.uuid ∧
    (defuMessage m m2).content =
      (match m.content with
       | some c => some c
       | none => m2.content) ∧
    (defuMessage m m2).media =
      (match m.media, m2.media with
       | some a, some b => some (a ++ b)
       | some a, none => some a
       | none, mb => mb) := by
  refine ⟨?_, rfl, rfl, rfl⟩
  unfold mergeByUuid
  rw [List.get?_map, hB]
  simp [mergeResolved, hR]

/-- Witness for C2's amended theorem at the concrete base/patch pair. -/
theorem mergeByUuid_defu_field_semantics_witness :
    [c2Base].get? 0 = some c2Base ∧
    lookupResultByUuid [c2Patch] c2Base.uuid = some c2Patch ∧
    (mergeByUuid [c2Base] [c2Patch]).get? 0 = some (defuMessage c2Base c2Patch) := by
  refine ⟨rfl, by decide, ?_⟩
  exact (mergeByUuid_defu_field_semantics [c2Base] [c2Patch] 0 c2Base c2Patch
    rfl (by decide)).1

/-! C3: the orchestrator catches a resolver failure at the granularity of
that resolver and that batch. -/

/-- A failing resolver's step leaves the batch unchanged. -/
theorem resolverStep_of_fails (batch : List CoreMessage) (r : Resolver)
    (h : resolverFailsOn r batch = true) :
    (resolverStep batch r).1 = batch := by
  cases r with
  | run f =>
      simp only [resolverFailsOn] at h
      simp only [resolverStep]
      cases hf : f batch with
      | error e => simp [hf]
      | ok result => rw [hf] at h; simp at h
  | stream f =>
      simp only [resolverFailsOn] at h
      simp only [resolverStep]
      cases hf : (f batch).2 with
      | none => rw [hf] at h; simp at h
      | some e => simp [hf]

/-- Splitting the registry splits the resolver loop: the suffix starts from
the batch the prefix produced. -/
theorem runRegistry_append (xs ys : List (String × Resolver)) (batch : List CoreMessage) :
    (runRegistry (xs ++ ys) batch).1 = (runRegistry ys (runRegistry xs batch).1).1 := by
  induction xs generalizing batch with
  | nil => simp [runRegistry]
  | cons e rest ih => simp [runRegistry, ih]

/-- Unfolding one registry entry, projected to the batch component. -/
theorem runRegistry_cons_fst (name : String) (r : Resolver)
    (rest : List (String × Resolver)) (batch : List CoreMessage) :
    (runRegistry ((name, r) :: rest) batch).1 =
      (runRegistry rest (resolverStep batch r).1).1 := rfl

/-- C3. A resolver that throws on the batch it receives (or whose result
unwrap fails) is caught at the granularity of that resolver and that batch:
its step hands the next resolver exactly the batch it received, and the
registry with the failing entry produces the same final batch as the
registry without it, so every subsequent resolver still runs; the loop is
total, so no error reaches the consumer. -/
theorem resolver_failure_isolated (pre post : List (String × Resolver))
    (B : List CoreMessage) (name : String) (r : Resolver)
    (hfail : resolverFailsOn r (runRegistry pre B).1 = true) :
    (resolverStep (runRegistry pre B).1 r).1 = (runRegistry pre B).1 ∧
    (runRegistry (pre ++ (name, r) :: post) B).1 = (runRegistry (pre ++ post) B).1 := by
  refine ⟨resolverStep_of_fails _ _ hfail, ?_⟩
  rw [runRegistry_append, runRegistry_append]
  rw [runRegistry_cons_fst, resolverStep_of_fails _ _ hfail]

/-- Concrete batch message for the C3 witness. -/
def c3Msg : CoreMessage :=
  { uuid := "m3", chatId := "c", platformMessageId := "3", platformTimestamp := 3
    content := some "x", media := none }

/-- A run-mode resolver that succeeds, keeping every message's content. -/
def c3GoodResolver : Resolver :=
  Resolver.run (fun batch => Except.ok batch)

/-- A run-mode resolver that throws on every input. -/
def c3BadResolver : Resolver :=
  Resolver.run (fun _ => Except.error "boom")

/-- Witness for C3: the throwing resolver placed between two working
resolvers leaves the final batch equal to the run without it. -/
theorem resolver_failure_isolated_witness :
    resolverFailsOn c3BadResolver
      (runRegistry [("good", c3GoodResolver)] [c3Msg]).1 = true ∧
    (runRegistry [("good", c3GoodResolver), ("bad", c3BadResolver),
        ("good2", c3GoodResolver)] [c3Msg]).1 =
      (runRegistry [("good", c3GoodResolver), ("good2", c3GoodResolver)] [c3Msg]).1 := by
  refine ⟨by decide, ?_⟩
  exact (resolver_failure_isolated [("good", c3GoodResolver)] [("good2", c3GoodResolver)]
    [c3Msg] "bad" c3BadResolver (by decide)).2

/-! C10: the orchestrator emits the whole converted batch to the sink before
any resolver runs and ends with the storage emission. -/

/-- C10. For every conversion function, registry and input batch, the first
emission of `processMessages` is one `message:data` event carrying the
entire successfully converted batch — it therefore precedes every
per-message stream emission — and the last emission is the final
`storage:record:messages`. Both hold for every registry, including one
whose resolvers all fail, so every converted message reaches the sink at
least once. -/
theorem processMessages_emission_order (convert : ApiMessage → Option CoreMessage)
    (registry : List (String × Resolver)) (messages : List ApiMessage) :
    (processMessages convert registry messages).head? =
      some (Emission.messageData (messages.filterMap convert)) ∧
    (processMessages convert registry messages).getLast? =
      some (Emission.storageRecord
        (runRegistry registry (messages.filterMap convert)).1) := by
  constructor
  · rfl
  · show (Emission.messageData (messages.filterMap convert) ::
        ((runRegistry registry (messages.filterMap convert)).2 ++
          [Emission.storageRecord
            (runRegistry registry (messages.filterMap convert)).1])).getLast? = _
    rw [← List.cons_append, List.getLast?_concat]

/-! C5: behaviour of `fetchMessages` on an invalid session. The source
checks `isUserAuthorized`, logs and plain-returns: the generator yields
nothing and carries no error value, so no typed error reaches the caller. -/

/-- An unauthorized client for the C5 theorems. -/
def c5Client : TelegramClient :=
  { isUserAuthorized := false
    getMessages := fun _ => Except.ok [ApiMessage.message 1 "p"] }

/-- Options used by the C5 theorems. -/
def c5Opts : FetchMessageOpts :=
  { pagination := { limit := 10, offset := 0 }, minId := none, maxId := none }

/-- Counterexample to C5 as stated. With an invalid session, the fetch call
does not fail with any typed error: the generator ends with no yields and
no error value at all, so in particular no `NotAuthorized` error is
surfaced to the caller. -/
theorem fetchMessages_unauthorized_counterexample :
    c5Client.isUserAuthorized = false ∧
    (fetchMessages c5Client "chat" c5Opts).returned = none ∧
    (fetchMessages c5Client "chat" c5Opts).yielded = [] ∧
    ¬ ∃ e, (fetchMessages c5Client "chat" c5Opts).returned = some e := by
  refine ⟨rfl, rfl, rfl, ?_⟩
  rintro ⟨e, he⟩
  simp [fetchMessages, c5Client] at he

/-- C5 amended. For every fetch call made while the platform session is
invalid, `fetchMessages` terminates immediately: it yields no messages and
surfaces no error of any kind to the caller (the failure is only logged). -/
theorem fetchMessages_unauthorized_silent (client : TelegramClient) (chatId : String)
    (options : FetchMessageOpts) (h : client.isUserAuthorized = false) :
    fetchMessages client chatId options = { yielded := [], returned := none } := by
  unfold fetchMessages
  rw [h]
  simp

/-- Witness for C5's amended theorem at the concrete unauthorized client. -/
theorem fetchMessages_unauthorized_silent_witness :
    c5Client.isUserAuthorized = false ∧
    fetchMessages c5Client "chat" c5Opts = { yielded := [], returned := none } :=
  ⟨rfl, fetchMessages_unauthorized_silent c5Client "chat" c5Opts rfl⟩

/-! C6: `fetchMessages` yields exactly the non-tombstone messages of the
page the platform returned, in the original sequence. -/

/-- C6. For every authorized client whose page fetch returns `page`, the
driver yields exactly the non-tombstone messages of `page`, in the
platform's original order (the yield list is the order-preserving filter of
`page`), and no tombstone is ever yielded. -/
theorem fetchMessages_filters_tombstones (client : TelegramClient) (chatId : String)
    (options : FetchMessageOpts) (page : List ApiMessage)
    (hauth : client.isUserAuthorized = true)
    (hget : client.getMessages
        { chatId := chatId
          limit := options.pagination.limit
          minId := options.minId
          maxId := options.maxId
          addOffset := options.pagination.offset } = Except.ok page) :
    (fetchMessages client chatId options).yielded =
      page.filter (fun m => !m.isMessageEmpty) ∧
    ∀ m ∈ (fetchMessages client chatId options).yielded, m.isMessageEmpty = false := by
  have hy : (fetchMessages client chatId options).yielded =
      page.filter (fun m => !m.isMessageEmpty) := by
    unfold fetchMessages
    rw [hauth]
    simp only [Bool.true_eq_false, if_false]
    rw [hget]
    by_cases hlen : page.length = 0
    · rw [List.length_eq_zero] at hlen
      subst hlen
      simp
    · simp [hlen]
  refine ⟨hy, ?_⟩
  intro m hm
  rw [hy] at hm
  have := List.of_mem_filter hm
  simpa using this

/-- A fifty-message page with exactly one tombstone, at position 24. -/
def c6Page : List ApiMessage :=
  (List.range 24).map (fun i => ApiMessage.message i "m") ++
    [ApiMessage.messageEmpty 24] ++
    (List.range 25).map (fun i => ApiMessage.message (25 + i) "m")

/-- An authorized client returning the fifty-message page. -/
def c6Client : TelegramClient :=
  { isUserAuthorized := true
    getMessages := fun _ => Except.ok c6Page }

/-- Options for the C6 witness: `{limit: 50, offset: 0}`. -/
def c6Opts : FetchMessageOpts :=
  { pagination := { limit := 50, offset := 0 }, minId := none, maxId := none }

/-- Witness for C6: the fifty-message page with one tombstone yields exactly
the forty-nine real messages, in order. -/
theorem fetchMessages_filters_tombstones_witness :
    c6Client.isUserAuthorized = true ∧
    c6Page.length = 50 ∧
    (fetchMessages c6Client "chat" c6Opts).yielded =
      c6Page.filter (fun m => !m.isMessageEmpty) ∧
    (fetchMessages c6Client "chat" c6Opts).yielded.length = 49 := by
  refine ⟨rfl, by decide, ?_, by decide⟩
  exact (fetchMessages_filters_tombstones c6Client "chat" c6Opts c6Page rfl rfl).1

/-! Helper lemmas about the per-attachment body of the media resolver. -/

/-- The download target path of an attachment of `m`: it depends only on the
message (chat id and platform message id), not on the attachment. -/
def mediaTargetPath (env : MediaEnv) (m : CoreMessage) : String :=
  pathJoin (pathJoin (pathJoin env.mediaBase env.userId) m.chatId) m.platformMessageId

/-- A non-sticker attachment always takes the download branch: the returned
attachment is rebuilt with the download result as bytes, the computed path,
and no base64; the effects are one download and, on success, one file
write. -/
theorem resolveMedia_nonsticker (env : MediaEnv) (m : CoreMessage)
    (media : CoreMessageMedia) (h : media.type ≠ CoreMessageMediaTypes.sticker) :
    resolveMedia env m media =
      ({ apiMedia := media.apiMedia
         byte := env.downloadMedia media.apiMedia
         path := some (mediaTargetPath env m)
         base64 := none
         type := media.type
         messageUUID := media.messageUUID },
       { downloads := [media.apiMedia]
         fileWrites :=
           match env.downloadMedia media.apiMedia with
           | some b => [(mediaTargetPath env m, b)]
           | none => []
         cacheInserts := [] }) := by
  unfold resolveMedia mediaTargetPath
  simp [h]

/-- A sticker attachment found in the cache is returned as the input spread
with `byte` replaced by the cached bytes, with no effects at all. -/
theorem resolveMedia_sticker_hit (env : MediaEnv) (m : CoreMessage)
    (media : CoreMessageMedia) (row : StickerRow)
    (ht : media.type = CoreMessageMediaTypes.sticker)
    (hrow : findStickerByFileId env.stickerDb media.apiMedia.documentId = some row) :
    resolveMedia env m media = ({ media with byte := row.sticker_bytes }, noEffects) := by
  unfold resolveMedia
  simp [ht, hrow]

/-- A sticker attachment missing from the cache takes the download branch. -/
theorem resolveMedia_sticker_miss (env : MediaEnv) (m : CoreMessage)
    (media : CoreMessageMedia)
    (ht : media.type = CoreMessageMediaTypes.sticker)
    (hmiss : findStickerByFileId env.stickerDb media.apiMedia.documentId = none) :
    resolveMedia env m media =
      ({ apiMedia := media.apiMedia
         byte := env.downloadMedia media.apiMedia
         path := some (mediaTargetPath env m)
         base64 := none
         type := media.type
         messageUUID := media.messageUUID },
       { downloads := [media.apiMedia]
         fileWrites :=
           match env.downloadMedia media.apiMedia with
           | some b => [(mediaTargetPath env m, b)]
           | none => []
         cacheInserts := [] }) := by
  unfold resolveMedia mediaTargetPath
  simp [ht, hmiss]

/-! C4: independence of attachment failures inside one message. -/

/-- C4 amended. For a message with three non-sticker attachments whose
middle download fails (the platform returns no buffer) while the others
succeed, the message is still yielded by the stream with the successful
attachments populated and only the failed one without bytes; the failed
attachment's `path` field, however, is still set — to the same computed
target path every attachment of the message gets — even though no file was
written for it; and no batch-level or resolver-level error exists (the
stream yields exactly one output message per input message). -/
theorem attachment_partial_failure (env : MediaEnv) (m : CoreMessage)
    (a b c : CoreMessageMedia) (ba bc : Bytes)
    (hm : m.media = some [a, b, c])
    (hat : a.type ≠ CoreMessageMediaTypes.sticker)
    (hbt : b.type ≠ CoreMessageMediaTypes.sticker)
    (hct : c.type ≠ CoreMessageMediaTypes.sticker)
    (hda : env.downloadMedia a.apiMedia = some ba)
    (hdb : env.downloadMedia b.apiMedia = none)
    (hdc : env.downloadMedia c.apiMedia = some bc) :
    ((resolveMessage env m).1.media.getD []).map (fun x => x.byte) =
      [some ba, none, some bc] ∧
    ((resolveMessage env m).1.media.getD []).map (fun x => x.path) =
      [some (mediaTargetPath env m), some (mediaTargetPath env m),
        some (mediaTargetPath env m)] ∧
    (resolveMessage env m).2.fileWrites =
      [(mediaTargetPath env m, ba), (mediaTargetPath env m, bc)] ∧
    (mediaResolverStream env [m]).1 = [(resolveMessage env m).1] := by
  have ha := resolveMedia_nonsticker env m a hat
  have hb := resolveMedia_nonsticker env m b hbt
  have hc := resolveMedia_nonsticker env m c hct
  rw [hda] at ha
  rw [hdb] at hb
  rw [hdc] at hc
  refine ⟨?_, ?_, ?_, by simp [mediaResolverStream]⟩ <;>
    simp [resolveMessage, hm, ha, hb, hc, combineEffects, noEffects]

/-- First attachment of the C4 concrete message: download succeeds. -/
def c4MedA : CoreMessageMedia :=
  { apiMedia := { documentId := "refA" }, byte := none, path := none, base64 := none
    type := CoreMessageMediaTypes.photo, messageUUID := "u4" }

/-- Second attachment of the C4 concrete message: download fails. -/
def c4MedB : CoreMessageMedia :=
  { apiMedia := { documentId := "refB" }, byte := none, path := none, base64 := none
    type := CoreMessageMediaTypes.document, messageUUID := "u4" }

/-- Third attachment of the C4 concrete message: download succeeds. -/
def c4MedC : CoreMessageMedia :=
  { apiMedia := { documentId := "refC" }, byte := none, path := none, base64 := none
    type := CoreMessageMediaTypes.photo, messageUUID := "u4" }

/-- The C4 concrete three-attachment message. -/
def c4Msg : CoreMessage :=
  { uuid := "u4", chatId := "c", platformMessageId := "42", platformTimestamp := 7
    content := none, media := some [c4MedA, c4MedB, c4MedC] }

/-- The C4 environment: the platform download fails exactly on the middle
attachment's reference. -/
def c4Env : MediaEnv :=
  { stickerDb := []
    downloadMedia := fun r => if r.documentId = "refB" then none else some [7]
    mediaBase := "media"
    userId := "user" }

/-- Counterexample to C4 as stated. The failed middle attachment is NOT
left without bytes/path: it has no bytes but its `path` field is populated
with the computed target path (a path no file was written to, since the
only file writes are those of the successful attachments). -/
theorem attachment_failure_path_counterexample :
    ((resolveMessage c4Env c4Msg).1.media.getD []).map (fun x => x.byte) =
      [some [7], none, some [7]] ∧
    ((resolveMessage c4Env c4Msg).1.media.getD []).map (fun x => x.path) =
      [some "media/user/c/42", some "media/user/c/42", some "media/user/c/42"] ∧
    (((resolveMessage c4Env c4Msg).1.media.getD []).get? 1).map (fun x => x.path) ≠
      some none ∧
    (resolveMessage c4Env c4Msg).2.fileWrites =
      [("media/user/c/42", [7]), ("media/user/c/42", [7])] := by
  refine ⟨by decide, by decide, by decide, by decide⟩

/-- Witness for C4's amended theorem at the concrete message and
environment. -/
theorem attachment_partial_failure_witness :
    c4Env.downloadMedia c4MedB.apiMedia = none ∧
    ((resolveMessage c4Env c4Msg).1.media.getD []).map (fun x => x.byte) =
      [some [7], none, some [7]] := by
  refine ⟨by decide, ?_⟩
  exact (attachment_partial_failure c4Env c4Msg c4MedA c4MedB c4MedC [7] [7]
    rfl (by decide) (by decide) (by decide) (by decide) (by decide) (by decide)).1

/-! C7: the sticker cache is consulted before downloading, but nothing is
ever written back into it. -/

/-- C7 amended. For every sticker attachment: on a cache hit (lookup by the
platform file id succeeds) the cached bytes are reused and no network
download is performed (the run has no effects at all); on a cache miss the
bytes are downloaded from the platform — but they are NOT written through
into the sticker cache: the resolver performs no cache insert. -/
theorem sticker_cache_hit_miss (env : MediaEnv) (m : CoreMessage)
    (media : CoreMessageMedia)
    (hst : media.type = CoreMessageMediaTypes.sticker) :
    (∀ row, findStickerByFileId env.stickerDb media.apiMedia.documentId = some row →
      resolveMedia env m media = ({ media with byte := row.sticker_bytes }, noEffects)) ∧
    (findStickerByFileId env.stickerDb media.apiMedia.documentId = none →
      (resolveMedia env m media).1.byte = env.downloadMedia media.apiMedia ∧
      (resolveMedia env m media).2.downloads = [media.apiMedia] ∧
      (resolveMedia env m media).2.cacheInserts = []) := by
  constructor
  · intro row hrow
    exact resolveMedia_sticker_hit env m media row hst hrow
  · intro hmiss
    rw [resolveMedia_sticker_miss env m media hst hmiss]
    refine ⟨rfl, rfl, ?_⟩
    cases env.downloadMedia media.apiMedia <;> rfl

/-- The cached sticker row for the C7 concrete environment. -/
def c7Row : StickerRow :=
  { platform := "telegram", file_id := "fid7", sticker_bytes := some [9, 9]
    sticker_path := none, description := "", name := "", emoji := "", label := "" }

/-- A sticker attachment whose platform file id is `fid7`. -/
def c7Med : CoreMessageMedia :=
  { apiMedia := { documentId := "fid7" }, byte := none, path := none, base64 := none
    type := CoreMessageMediaTypes.sticker, messageUUID := "u7" }

/-- The message carrying the C7 sticker attachment. -/
def c7Msg : CoreMessage :=
  { uuid := "u7", chatId := "c", platformMessageId := "70", platformTimestamp := 1
    content := none, media := some [c7Med] }

/-- C7 environment with the sticker cached. -/
def c7EnvHit : MediaEnv :=
  { stickerDb := [c7Row], downloadMedia := fun _ => some [5], mediaBase := "m"
    userId := "usr" }

/-- C7 environment with an empty sticker cache and a succeeding download. -/
def c7EnvMiss : MediaEnv :=
  { stickerDb := [], downloadMedia := fun _ => some [5], mediaBase := "m"
    userId := "usr" }

/-- Counterexample to C7 as stated. On a cache miss the bytes ARE
downloaded successfully, yet nothing is written through into the sticker
cache: the run performs no cache insert, so the claimed write-through does
not happen. -/
theorem sticker_cache_writethrough_counterexample :
    findStickerByFileId c7EnvMiss.stickerDb c7Med.apiMedia.documentId = none ∧
    (resolveMedia c7EnvMiss c7Msg c7Med).1.byte = some [5] ∧
    (resolveMedia c7EnvMiss c7Msg c7Med).2.downloads = [{ documentId := "fid7" }] ∧
    (resolveMedia c7EnvMiss c7Msg c7Med).2.cacheInserts = [] ∧
    ¬ "fid7" ∈ (resolveMedia c7EnvMiss c7Msg c7Med).2.cacheInserts := by
  refine ⟨rfl, by decide, by decide, by decide, by decide⟩

/-- Witness for C7's amended theorem: the hit branch at the concrete cached
environment and the miss branch at the empty-cache environment. -/
theorem sticker_cache_hit_miss_witness :
    c7Med.type = CoreMessageMediaTypes.sticker ∧
    findStickerByFileId c7EnvHit.stickerDb c7Med.apiMedia.documentId = some c7Row ∧
    resolveMedia c7EnvHit c7Msg c7Med = ({ c7Med with byte := some [9, 9] }, noEffects) ∧
    (resolveMedia c7EnvMiss c7Msg c7Med).2.cacheInserts = [] := by
  refine ⟨rfl, by decide, ?_, ?_⟩
  · exact (sticker_cache_hit_miss c7EnvHit c7Msg c7Med rfl).1 c7Row (by decide)
  · exact ((sticker_cache_hit_miss c7EnvMiss c7Msg c7Med rfl).2 (by decide)).2.2

/-! C9: base64 clearing. The download branch rebuilds the attachment without
a base64 field, but the cache-hit branch spreads the input attachment and so
preserves any base64 it carried. -/

/-- The sticker row cached in the C9 environment. -/
def c9Row : StickerRow :=
  { platform := "telegram", file_id := "fid9", sticker_bytes := some [3]
    sticker_path := none, description := "", name := "", emoji := "", label := "" }

/-- A sticker attachment that arrives with a base64 representation. -/
def c9Med : CoreMessageMedia :=
  { apiMedia := { documentId := "fid9" }, byte := none, path := none
    base64 := some "enc", type := CoreMessageMediaTypes.sticker, messageUUID := "u9" }

/-- The message carrying the C9 attachment. -/
def c9Msg : CoreMessage :=
  { uuid := "u9", chatId := "c", platformMessageId := "90", platformTimestamp := 2
    content := none, media := some [c9Med] }

/-- C9 environment: the sticker is cached. -/
def c9Env : MediaEnv :=
  { stickerDb := [c9Row], downloadMedia := fun _ => some [5], mediaBase := "m"
    userId := "usr" }

/-- Counterexample to C9 as stated. On the sticker-cache-hit path the input
attachment's base64 field is NOT cleared: the output still carries it. -/
theorem base64_cleared_counterexample :
    c9Med.base64 = some "enc" ∧
    (resolveMedia c9Env c9Msg c9Med).1.base64 = some "enc" ∧
    (resolveMedia c9Env c9Msg c9Med).1.base64 ≠ none := by
  refine ⟨rfl, by decide, by decide⟩

/-- C9 amended. The resolver computes no base64 representation anywhere; on
every download branch (non-sticker attachments, and sticker attachments
missing from the cache) the returned attachment's base64 field is cleared,
but on the sticker-cache-hit branch the input attachment's base64 field is
preserved unchanged rather than cleared. -/
theorem base64_clearing_paths (env : MediaEnv) (m : CoreMessage)
    (media : CoreMessageMedia) :
    (media.type ≠ CoreMessageMediaTypes.sticker →
      (resolveMedia env m media).1.base64 = none) ∧
    (media.type = CoreMessageMediaTypes.sticker →
      findStickerByFileId env.stickerDb media.apiMedia.documentId = none →
      (resolveMedia env m media).1.base64 = none) ∧
    (∀ row, media.type = CoreMessageMediaTypes.sticker →
      findStickerByFileId env.stickerDb media.apiMedia.documentId = some row →
      (resolveMedia env m media).1.base64 = media.base64) := by
  refine ⟨?_, ?_, ?_⟩
  · intro h
    rw [resolveMedia_nonsticker env m media h]
  · intro ht hmiss
    rw [resolveMedia_sticker_miss env m media ht hmiss]
  · intro row ht hrow
    rw [resolveMedia_sticker_hit env m media row ht hrow]

/-- Witness for C9's amended theorem: the cache-hit branch at the concrete
environment keeps the attachment's base64. -/
theorem base64_clearing_paths_witness :
    c9Med.base64 = some "enc" ∧
    (resolveMedia c9Env c9Msg c9Med).1.base64 = c9Med.base64 :=
  ⟨rfl, (base64_clearing_paths c9Env c9Msg c9Med).2.2 c9Row rfl (by decide)⟩

/-! C8: idempotence of the sticker store insert. -/

/-- C8. Inserting a sticker whose file id is not yet present and then
inserting any sticker with the same file id again leaves exactly one cache
entry for that file id: the second insert is a no-op that returns the store
unchanged, and the stored entry is still exactly the row built from the
first insert (bytes, path and metadata not overwritten). -/
theorem recordSticker_idempotent (db : StickerDb) (s1 s2 : StickerInput)
    (hid : s2.sticker_id = s1.sticker_id)
    (habsent : findStickerByFileId db s1.sticker_id = none) :
    recordSticker (recordSticker db s1) s2 = recordSticker db s1 ∧
    ((recordSticker db s1).filter
      (fun row => row.file_id == s1.sticker_id)).length = 1 ∧
    findStickerByFileId (recordSticker db s1) s1.sticker_id = some (mkStickerRow s1) := by
  have hins : recordSticker db s1 = db ++ [mkStickerRow s1] := by
    unfold recordSticker
    rw [habsent]
  have hfind : findStickerByFileId (db ++ [mkStickerRow s1]) s1.sticker_id =
      some (mkStickerRow s1) := by
    unfold findStickerByFileId at habsent ⊢
    rw [List.find?_append, habsent]
    simp [mkStickerRow]
  refine ⟨?_, ?_, by rw [hins]; exact hfind⟩
  · rw [hins]
    unfold recordSticker
    rw [hid, hfind]
  · rw [hins, List.filter_append]
    have hnil : db.filter (fun row => row.file_id == s1.sticker_id) = [] := by
      unfold findStickerByFileId at habsent
      rw [List.filter_eq_nil]
      intro row hrow
      have := List.find?_eq_none.mp habsent row hrow
      simpa using this
    rw [hnil]
    simp [mkStickerRow]

/-- First insert of the C8 witness: bytes, path and emoji all set. -/
def c8S1 : StickerInput :=
  { media :=
      { apiMedia := { documentId := "fid8" }, byte := some [1], path := some "p1"
        base64 := none, type := CoreMessageMediaTypes.sticker, messageUUID := "u8" }
    sticker_id := "fid8"
    emoji := some "grin" }

/-- Second insert of the C8 witness: same file id, different bytes, path
and emoji. -/
def c8S2 : StickerInput :=
  { media :=
      { apiMedia := { documentId := "fid8" }, byte := some [2], path := some "p2"
        base64 := none, type := CoreMessageMediaTypes.sticker, messageUUID := "u8" }
    sticker_id := "fid8"
    emoji := none }

/-- Witness for C8 starting from the empty store. -/
theorem recordSticker_idempotent_witness :
    c8S2.sticker_id = c8S1.sticker_id ∧
    findStickerByFileId [] c8S1.sticker_id = none ∧
    recordSticker (recordSticker [] c8S1) c8S2 = recordSticker [] c8S1 := by
  refine ⟨rfl, rfl, ?_⟩
  exact (recordSticker_idempotent [] c8S1 c8S2 rfl rfl).1

end TgSearch
